import Mathlib

/-!
Shallow embedding of the `fallible` storage-facade crate (src/storage_facade.rs and
src/s3_facade.rs).  Backend (S3) behaviour is modelled explicitly: each embedded
operation takes the backend's response — or a finite-map model of the bucket's
contents plus an optional injected backend fault — as an argument, mirroring the
`.send().await` results the Rust code consumes.  Byte payloads are `List Nat`.
-/

namespace Fallible

/-- Error model for the boxed errors the crate propagates: a NotFound-kind backend
error, any other backend/transport error, and an error produced by a caller-supplied
transform function (which the code surfaces unchanged via `?`). -/
inductive Err where
  | notFound
  | backend (code : Nat)
  | transform (code : Nat)
deriving DecidableEq

/-- Raw byte payloads. -/
abbrev Bytes := List Nat

/-- Model of one bucket's contents: an association list from object key to stored
bytes; `insert` shadows, so the most recent `put_object` wins, and `find` returns
the live value. -/
abbrev Store := List (String × Bytes)

def Store.find : Store → String → Option Bytes
  | [], _ => none
  | (k, v) :: rest, p => if k = p then some v else Store.find rest p

/-- `put_object`: overwrite-on-write by shadowing. -/
def Store.insert (s : Store) (k : String) (v : Bytes) : Store := (k, v) :: s

/-- `delete_object`: removes every entry at the key (idempotent; absent key is a
no-op, matching S3 delete semantics). -/
def Store.eraseKey (s : Store) (k : String) : Store :=
  s.filter (fun e => decide (e.1 ≠ k))

/-- `DataStoreId` from src/storage_facade.rs. -/
inductive DataStoreId where
  | S3 (arn : String)
  | Local (path : String)
deriving DecidableEq

/-- `StoreMetadata` from src/storage_facade.rs. -/
structure StoreMetadata where
  id : DataStoreId
  name : String
  description : String
deriving DecidableEq

/-- `S3Facade` from src/s3_facade.rs (the SDK client handle carries no observable
state and is dropped from the model). -/
structure S3Facade where
  metadata : StoreMetadata
deriving DecidableEq

/-- The fields of the SDK's `HeadBucketOutput` that `S3Facade::new` reads. -/
structure HeadBucketOutput where
  bucket_arn : Option String
deriving DecidableEq

/-- `S3Facade::new` from src/s3_facade.rs: the `head_bucket` response is the
`request` argument; on error the error is returned, on success the ARN is the
backend-reported one or `format!("arn:aws:s3:::{}", name)`. -/
def S3Facade.new (name description : String) (request : Except Err HeadBucketOutput) :
    Except Err S3Facade :=
  match request with
  | .error e => .error e
  | .ok result =>
    let arn : String :=
      match result.bucket_arn with
      | some a => a
      | none => "arn:aws:s3:::" ++ name
    .ok { metadata := { id := DataStoreId.S3 arn, name := name, description := description } }

/-- The fields of the SDK's `HeadObjectOutput` that this crate could read (none are
inspected by `file_exists`, which only tests success). -/
structure HeadObjectOutput where
  content_length : Option Nat
deriving DecidableEq

/-- `file_exists` from src/s3_facade.rs: `check` is the result of the private
`get_object_head` (a `head_object` send); the function is `if let Ok(_) = check
{ true } else { false }` — a total Bool, it can never raise. -/
def file_exists (check : Except Err HeadObjectOutput) : Bool :=
  match check with
  | .ok _ => true
  | .error _ => false

/-- `get_object`: the backend fetch `read_data` starts with; NotFound when no object
lives at the key. -/
def getObject (store : Store) (path : String) : Except Err Bytes :=
  match store.find path with
  | some d => .ok d
  | none => .error Err.notFound

/-- `read_data` from src/s3_facade.rs: fetch the object, then, if a decrypt
function was passed, return its output (`Ok` bytes or its own error); otherwise
return the raw bytes. -/
def read_data (store : Store) (path : String)
    (decrypt : Option (Bytes → Except Err Bytes)) : Except Err Bytes :=
  match getObject store path with
  | .error e => .error e
  | .ok bytes =>
    match decrypt with
    | some decrypt_fn =>
      match decrypt_fn bytes with
      | .ok cleartext => .ok cleartext
      | .error e => .error e
    | none => .ok bytes

/-- `write_data` from src/s3_facade.rs: apply the encrypt function to the input
when present (its error propagates via `?` before any upload), then `put_object`;
`uploadFault` injects a backend failure of the upload itself. -/
def write_data (store : Store) (path : String) (data : Bytes)
    (encrypt : Option (Bytes → Except Err Bytes)) (uploadFault : Option Err) :
    Except Err Store :=
  match (match encrypt with
         | some encrypt_fn => encrypt_fn data
         | none => .ok data) with
  | .error e => .error e
  | .ok d =>
    match uploadFault with
    | some e => .error e
    | none => .ok (store.insert path d)

/-- The fields of the SDK's `Object` that `list_objects` reads. -/
structure S3Object where
  key : Option String
deriving DecidableEq

/-- The fields of the SDK's `ListObjectsV2Output` that `list_objects` reads. -/
structure ListObjectsV2Output where
  contents : List S3Object
deriving DecidableEq

/-- Backend model of S3 prefix matching for `.prefix(dir_path)` queries: the key
starts with the prefix (character-wise). -/
def isKeyPrefix (p k : String) : Bool := p.data.isPrefixOf k.data

/-- The key-collection loop of `list_objects`: every page's objects, keeping each
`Some` key, in page order. -/
def pageKeys (pages : List ListObjectsV2Output) : List String :=
  pages.flatMap (fun p => p.contents.filterMap (fun o => o.key))

/-- `list_objects` from src/s3_facade.rs: `request` is the paginator's collected
result (`?` propagates a failed page fetch); on success the keys of all pages are
gathered and sorted ascending (`keys.sort()`). -/
def list_objects (request : Except Err (List ListObjectsV2Output)) :
    Except Err (List String) :=
  match request with
  | .error e => .error e
  | .ok pages => .ok (List.insertionSort (· ≤ ·) (pageKeys pages))

/-- The fields of the SDK's `ObjectVersion` that `list_object_versions` gathers. -/
structure ObjectVersion where
  key : Option String
  version_id : Option String
deriving DecidableEq

/-- The fields of the SDK's `ListObjectVersionsOutput` that `list_object_versions`
reads. -/
structure ListObjectVersionsOutput where
  versions : Option (List ObjectVersion)
  next_key_marker : Option String
  next_version_id_marker : Option String
  is_truncated : Option Bool
deriving DecidableEq

/-- Outcome of running a fallible, possibly panicking operation: a normal return,
a propagated error, a panic (`unwrap()` on `None`, or `todo!()`), or an execution
still requesting further backend responses than were scripted. -/
inductive RunRes (α : Type) where
  | ok (a : α)
  | fail (e : Err)
  | panicked
  | pending
deriving DecidableEq

def RunRes.isOk : RunRes α → Bool
  | .ok _ => true
  | _ => false

/-- The `while truncated` loop of `list_object_versions`: each iteration consumes
the next scripted response of the follow-up `list_object_versions` send (with the
chained `key_marker`/`version_id_marker`), extends the accumulated versions with
`next_request.versions()` (empty when absent), and rechains the markers; when the
truncation flag is false the source hits the trailing `todo!()`, which we model as
a panic. -/
def lovLoop : List ObjectVersion → String → String → Bool →
    List (Except Err ListObjectVersionsOutput) → RunRes (List String)
  | _, _, _, false, _ => .panicked
  | _, _, _, true, [] => .pending
  | _, _, _, true, (.error e) :: _ => .fail e
  | versions, _, _, true, (.ok nr) :: rest =>
    lovLoop (versions ++ nr.versions.getD []) (nr.next_key_marker.getD "")
      (nr.next_version_id_marker.getD "") (nr.is_truncated.getD false) rest

/-- `list_object_versions` from src/s3_facade.rs: `first` is the initial send's
result (note `request.versions.unwrap()` panics when the backend omits the field),
`rest` scripts the follow-up sends consumed by the `while truncated` loop. -/
def list_object_versions (first : Except Err ListObjectVersionsOutput)
    (rest : List (Except Err ListObjectVersionsOutput)) : RunRes (List String) :=
  match first with
  | .error e => .fail e
  | .ok r =>
    match r.versions with
    | none => .panicked
    | some vs =>
      lovLoop vs (r.next_key_marker.getD "") (r.next_version_id_marker.getD "")
        (r.is_truncated.getD false) rest

/-- `delete_file` from src/s3_facade.rs: a single `delete_object`; `fault` injects
a backend failure, otherwise the key is removed (success even when absent). -/
def delete_file (store : Store) (path : String) (fault : Option Err) :
    Except Err Store :=
  match fault with
  | some e => .error e
  | none => .ok (store.eraseKey path)

/-- `copy_file` from src/s3_facade.rs: a single server-side `copy_object` within
the bucket; `fault` injects a backend failure; without a fault the copy errors
NotFound when the source is absent and otherwise writes the source's bytes at
`to`. -/
def copy_file (store : Store) (from_ to_ : String) (fault : Option Err) :
    Except Err Store :=
  match fault with
  | some e => .error e
  | none =>
    match store.find from_ with
    | none => .error Err.notFound
    | some d => .ok (store.insert to_ d)

/-- `move_file` from src/s3_facade.rs: `self.copy_file(from, to).await?;
self.delete_file(from).await?; Ok(())` — copy, then delete, each `?` propagating
its error. -/
def move_file (store : Store) (from_ to_ : String) (copyFault deleteFault : Option Err) :
    Except Err Store :=
  match copy_file store from_ to_ copyFault with
  | .error e => .error e
  | .ok s2 =>
    match delete_file s2 from_ deleteFault with
    | .error e => .error e
    | .ok s3 => .ok s3

/-- The bucket state `move_file` leaves behind: unchanged when the copy fails (the
delete is never sent), the copied-but-not-deleted state when the delete fails, and
the fully moved state on success. -/
def move_file_state (store : Store) (from_ to_ : String)
    (copyFault deleteFault : Option Err) : Store :=
  match copy_file store from_ to_ copyFault with
  | .error _ => store
  | .ok s2 =>
    match delete_file s2 from_ deleteFault with
    | .error _ => s2
    | .ok s3 => s3

/-- The file-level metadata the spec's `statMetadata` returns. -/
structure FileMetadata where
  size : Nat
deriving DecidableEq

/-- Modelled from the spec: the `StorageFacade` trait (src/storage_facade.rs)
declares `get_file_metadata`, but the `impl StorageFacade for S3Facade` block in
src/s3_facade.rs contains no body for it.  Following the spec — "statMetadata(path)
-> Metadata: returns backend-native metadata (size, timestamps, etc.) for a single
object; fails with NotFound if absent" — the model returns the stored object's
size and a NotFound-kind error when no object exists at the path. -/
def get_file_metadata (store : Store) (path : String) : Except Err FileMetadata :=
  match store.find path with
  | some d => .ok { size := d.length }
  | none => .error Err.notFound

/-- One invocation of a facade operation together with the backend responses or
faults it consumes, for stating state-invariance over operation sequences. -/
inductive FacadeOp where
  | read (path : String) (decrypt : Option (Bytes → Except Err Bytes))
  | write (path : String) (data : Bytes) (encrypt : Option (Bytes → Except Err Bytes))
      (uploadFault : Option Err)
  | listObjects (request : Except Err (List ListObjectsV2Output))
  | listVersions (first : Except Err ListObjectVersionsOutput)
      (rest : List (Except Err ListObjectVersionsOutput))
  | deleteFile (path : String) (fault : Option Err)
  | moveFile (from_ to_ : String) (copyFault deleteFault : Option Err)
  | copyFile (from_ to_ : String) (fault : Option Err)
  | fileExists (check : Except Err HeadObjectOutput)

/-- Running one operation against a facade (`&self`) and the bucket state: the
operation's embedded body is evaluated and the bucket state advances on success;
read-only operations and failed mutations leave the bucket as it was. -/
def applyOp (fac : S3Facade) (store : Store) : FacadeOp → S3Facade × Store
  | .read _ _ => (fac, store)
  | .write p d enc fault =>
    (fac, match write_data store p d enc fault with
          | .ok s2 => s2
          | .error _ => store)
  | .listObjects _ => (fac, store)
  | .listVersions _ _ => (fac, store)
  | .deleteFile p fault =>
    (fac, match delete_file store p fault with
          | .ok s2 => s2
          | .error _ => store)
  | .moveFile f t cf df => (fac, move_file_state store f t cf df)
  | .copyFile f t fault =>
    (fac, match copy_file store f t fault with
          | .ok s2 => s2
          | .error _ => store)
  | .fileExists _ => (fac, store)

/-- Running a sequence of facade operations from an initial facade and bucket. -/
def runOps (fac : S3Facade) (store : Store) : List FacadeOp → S3Facade × Store
  | [] => (fac, store)
  | op :: rest =>
    let next := applyOp fac store op
    runOps next.1 next.2 rest

/-! ## Theorems -/

/-- Helper: the `while truncated` loop of `list_object_versions` can propagate an
error, run out of scripted responses, or fall through to the trailing `todo!()`
panic — it never yields a normal return. -/
theorem lovLoop_isOk_false (rest : List (Except Err ListObjectVersionsOutput)) :
    ∀ versions km vm truncated,
      (lovLoop versions km vm truncated rest).isOk = false := by
  induction rest with
  | nil =>
    intro versions km vm truncated
    cases truncated <;> rfl
  | cons next rest ih =>
    intro versions km vm truncated
    cases truncated with
    | false => rfl
    | true =>
      cases next with
      | error e => rfl
      | ok nr => exact ih _ _ _ _

/-- Claim C1: the claim says `list_object_versions` terminates normally, returning
the merged collection of versions once the backend reports no further truncation.
The source instead ends in `todo!()` (and `request.versions.unwrap()` panics when
the first response omits the field): no run, whatever the backend responses, ever
produces a normal return. -/
theorem list_object_versions_never_returns
    (first : Except Err ListObjectVersionsOutput)
    (rest : List (Except Err ListObjectVersionsOutput)) :
    (list_object_versions first rest).isOk = false := by
  cases first with
  | error e => rfl
  | ok r =>
    have hstep : list_object_versions (Except.ok r) rest =
        match r.versions with
        | none => RunRes.panicked
        | some vs =>
          lovLoop vs (r.next_key_marker.getD "") (r.next_version_id_marker.getD "")
            (r.is_truncated.getD false) rest := rfl
    rw [hstep]
    cases r.versions with
    | none => rfl
    | some vs => exact lovLoop_isOk_false rest _ _ _ _

/-- Claim C3: `file_exists` is a total Bool — it returns `true` exactly when the
head-object probe succeeded, and `false` on any failure response, NotFound and
transient/authorization failures alike. -/
theorem file_exists_spec (check : Except Err HeadObjectOutput) :
    (file_exists check = true ↔ ∃ out, check = Except.ok out) ∧
    (∀ e : Err, file_exists (Except.error e) = false) := by
  constructor
  · constructor
    · intro h
      cases check with
      | error e => exact absurd h (by simp [file_exists])
      | ok out => exact ⟨out, rfl⟩
    · rintro ⟨out, rfl⟩
      rfl
  · intro e
    rfl

/-- Claim C8: `S3Facade::new` propagates the probe's error unchanged (never a
facade), and on probe success returns a facade whose identity locator is the
backend-reported ARN when present and `"arn:aws:s3:::" ++ name` otherwise. -/
theorem new_spec (name desc : String) (req : Except Err HeadBucketOutput) :
    (∀ e : Err, req = Except.error e → S3Facade.new name desc req = Except.error e) ∧
    (∀ out : HeadBucketOutput, req = Except.ok out →
      S3Facade.new name desc req =
        Except.ok { metadata :=
          { id := DataStoreId.S3 (out.bucket_arn.getD ("arn:aws:s3:::" ++ name)),
            name := name, description := desc } }) := by
  constructor
  · rintro e rfl
    rfl
  · rintro ⟨arn⟩ rfl
    cases arn <;> rfl

/-- Witness for C8 at a concrete probe response with no backend-reported ARN. -/
theorem new_spec_witness :
    S3Facade.new "bucket" "for audit" (Except.ok { bucket_arn := none }) =
      Except.ok { metadata :=
        { id := DataStoreId.S3 "arn:aws:s3:::bucket",
          name := "bucket", description := "for audit" } } :=
  (new_spec "bucket" "for audit" (Except.ok { bucket_arn := none })).2
    { bucket_arn := none } rfl

/-- Counterexample to claim C9 as stated: constructing with an empty description
succeeds (given a successful probe) and yields a usable facade whose description
is empty — the constructor never validates the description. -/
theorem empty_description_accepted :
    ∃ fac : S3Facade,
      S3Facade.new "bucket" "" (Except.ok { bucket_arn := none }) = Except.ok fac ∧
      fac.metadata.description = "" :=
  ⟨{ metadata := { id := DataStoreId.S3 "arn:aws:s3:::bucket",
                   name := "bucket", description := "" } }, rfl, rfl⟩

/-- Claim C9 amended: `S3Facade::new` performs no validation of the description;
whenever the probe succeeds it returns a facade whose description is exactly the
argument, empty or not. -/
theorem new_description_verbatim (name desc : String) (out : HeadBucketOutput) :
    ∃ fac : S3Facade,
      S3Facade.new name desc (Except.ok out) = Except.ok fac ∧
      fac.metadata.description = desc ∧ fac.metadata.name = name := by
  cases out with
  | mk arn =>
    cases arn with
    | none => exact ⟨_, rfl, rfl, rfl⟩
    | some a => exact ⟨_, rfl, rfl, rfl⟩

/-- Claim C2: `get_file_metadata` returns the metadata of the single object at the
path — it succeeds exactly when an object is stored there, reporting its size —
and fails with a NotFound-kind error when no object exists at the path. -/
theorem get_file_metadata_spec (store : Store) (path : String) :
    (∀ d : Bytes, store.find path = some d →
      get_file_metadata store path = Except.ok { size := d.length }) ∧
    (store.find path = none →
      get_file_metadata store path = Except.error Err.notFound) ∧
    ((∃ m, get_file_metadata store path = Except.ok m) ↔
      ∃ d, store.find path = some d) := by
  refine ⟨?_, ?_, ?_⟩
  · intro d h
    simp [get_file_metadata, h]
  · intro h
    simp [get_file_metadata, h]
  · constructor
    · rintro ⟨m, hm⟩
      cases h : store.find path with
      | none => simp [get_file_metadata, h] at hm
      | some d => exact ⟨d, rfl⟩
    · rintro ⟨d, hd⟩
      exact ⟨{ size := d.length }, by simp [get_file_metadata, hd]⟩

/-- Witness for C2 at a concrete store: present object reports its size, and a
probe beside it fails NotFound. -/
theorem get_file_metadata_spec_witness :
    get_file_metadata [("a.txt", [1, 2, 3])] "a.txt" = Except.ok { size := 3 } ∧
    get_file_metadata [("a.txt", [1, 2, 3])] "missing" = Except.error Err.notFound :=
  ⟨(get_file_metadata_spec [("a.txt", [1, 2, 3])] "a.txt").1 [1, 2, 3] rfl,
   (get_file_metadata_spec [("a.txt", [1, 2, 3])] "missing").2.1 rfl⟩

/-- Claim C5: `move_file` is copy-then-delete in that order; when the copy fails
the move fails with the copy's error, the delete is never attempted and the bucket
(in particular the source object) is untouched; when the delete fails after a
successful copy the delete's error surfaces and the bucket holds the object at
both locations. -/
theorem move_file_spec (store : Store) (from_ to_ : String) (cf df : Option Err) :
    move_file store from_ to_ cf df =
      (copy_file store from_ to_ cf).bind (fun s2 => delete_file s2 from_ df) ∧
    (∀ e : Err, copy_file store from_ to_ cf = Except.error e →
      move_file store from_ to_ cf df = Except.error e ∧
      move_file_state store from_ to_ cf df = store) ∧
    (∀ (s2 : Store) (e : Err), copy_file store from_ to_ cf = Except.ok s2 →
      delete_file s2 from_ df = Except.error e →
      move_file store from_ to_ cf df = Except.error e ∧
      move_file_state store from_ to_ cf df = s2 ∧
      ∃ d : Bytes, store.find from_ = some d ∧
        s2.find from_ = some d ∧ s2.find to_ = some d) := by
  refine ⟨?_, ?_, ?_⟩
  · cases h : copy_file store from_ to_ cf with
    | error e => simp [move_file, Except.bind, h]
    | ok s2 =>
      cases h2 : delete_file s2 from_ df with
      | error e => simp [move_file, Except.bind, h, h2]
      | ok s3 => simp [move_file, Except.bind, h, h2]
  · intro e h
    exact ⟨by simp [move_file, h], by simp [move_file_state, h]⟩
  · intro s2 e hcopy hdel
    refine ⟨by simp [move_file, hcopy, hdel], by simp [move_file_state, hcopy, hdel], ?_⟩
    cases cf with
    | some e' => simp [copy_file] at hcopy
    | none =>
      cases hf : store.find from_ with
      | none => simp [copy_file, hf] at hcopy
      | some d =>
        have hs2 : s2 = store.insert to_ d := by
          simp [copy_file, hf] at hcopy
          exact hcopy.symm
        subst hs2
        refine ⟨d, rfl, ?_, ?_⟩
        · show Store.find ((to_, d) :: store) from_ = some d
          by_cases hft : to_ = from_
          · simp [Store.find, hft]
          · simp [Store.find, hft, hf]
        · show Store.find ((to_, d) :: store) to_ = some d
          simp [Store.find]

/-- Witness for C5 at a concrete run: the copy of `"a"` to `"b"` succeeds and the
injected delete failure surfaces, leaving the object at both keys. -/
theorem move_file_spec_witness :
    move_file [("a", [1])] "a" "b" none (some (Err.backend 3)) =
      Except.error (Err.backend 3) ∧
    move_file_state [("a", [1])] "a" "b" none (some (Err.backend 3)) =
      [("b", [1]), ("a", [1])] :=
  have h := (move_file_spec [("a", [1])] "a" "b" none (some (Err.backend 3))).2.2
    [("b", [1]), ("a", [1])] (Err.backend 3) rfl rfl
  ⟨h.1, h.2.1⟩

/-- Claim C7: a failing caller-supplied transform aborts the operation with the
transform's own error, unchanged and with no partial result: a failing decrypt
makes `read_data` return exactly that error (no bytes), and a failing encrypt
makes `write_data` return exactly that error without any upload (even an injected
upload fault is never reached). -/
theorem transform_error_spec (store : Store) (p : String) (data bytes : Bytes)
    (e : Err) (dec enc : Bytes → Except Err Bytes) :
    (store.find p = some bytes → dec bytes = Except.error e →
      read_data store p (some dec) = Except.error e) ∧
    (enc data = Except.error e →
      ∀ fault : Option Err,
        write_data store p data (some enc) fault = Except.error e) := by
  constructor
  · intro hf hd
    simp [read_data, getObject, hf, hd]
  · intro he fault
    simp [write_data, he]

/-- A decrypt/encrypt stand-in that always fails with its own transform error. -/
def failingTransform : Bytes → Except Err Bytes :=
  fun _ => Except.error (Err.transform 7)

/-- Witness for C7 at a concrete store and transform: the transform's error
surfaces unchanged from both `read_data` and `write_data`. -/
theorem transform_error_spec_witness :
    read_data [("p", [1])] "p" (some failingTransform) =
      Except.error (Err.transform 7) ∧
    write_data [("p", [1])] "p" [2] (some failingTransform)
        (some (Err.backend 9)) = Except.error (Err.transform 7) :=
  have h := transform_error_spec [("p", [1])] "p" [2] [1] (Err.transform 7)
    failingTransform failingTransform
  ⟨h.1 rfl rfl, h.2 rfl (some (Err.backend 9))⟩

/-- Claim C4: given the backend contract — the pages of the prefix query jointly
hold exactly the keys of the bucket's objects that start with `dir_path`, each
once — `list_objects` returns all of them, drained across all pages with no
truncation or duplication, sorted lexicographically ascending; an unmatched
prefix yields `[]`, not an error, and a failed page fetch propagates its error. -/
theorem list_objects_spec (dir_path : String) (allKeys : List String)
    (pages : List ListObjectsV2Output)
    (hcontract : (pageKeys pages).Perm
      (allKeys.filter (fun k => isKeyPrefix dir_path k)))
    (hnodup : allKeys.Nodup) :
    ∃ res : List String,
      list_objects (Except.ok pages) = Except.ok res ∧
      res.Sorted (· ≤ ·) ∧
      res.Nodup ∧
      res.Perm (pageKeys pages) ∧
      (∀ k : String, k ∈ res ↔ (k ∈ allKeys ∧ isKeyPrefix dir_path k = true)) ∧
      ((∀ k ∈ allKeys, isKeyPrefix dir_path k = false) → res = []) ∧
      (∀ e : Err, list_objects (Except.error e) = Except.error e) := by
  refine ⟨List.insertionSort (· ≤ ·) (pageKeys pages), rfl, ?_, ?_, ?_, ?_, ?_, ?_⟩
  · exact List.sorted_insertionSort _ _
  · exact (((List.perm_insertionSort _ _).trans hcontract).nodup_iff).mpr
      (hnodup.filter _)
  · exact List.perm_insertionSort _ _
  · intro k
    rw [List.mem_insertionSort, hcontract.mem_iff, List.mem_filter]
  · intro h
    have hfil : allKeys.filter (fun k => isKeyPrefix dir_path k) = [] := by
      rw [List.filter_eq_nil_iff]
      intro a ha
      simp [h a ha]
    have hperm : (List.insertionSort (· ≤ ·) (pageKeys pages)).Perm
        (allKeys.filter (fun k => isKeyPrefix dir_path k)) :=
      (List.perm_insertionSort _ _).trans hcontract
    rw [hfil] at hperm
    exact hperm.eq_nil
  · intro e
    rfl

/-- The concrete pages the C4 witness feeds to `list_objects`. -/
def pagesW : List ListObjectsV2Output :=
  [{ contents := [{ key := some "pre/b" }] }, { contents := [{ key := some "pre/a" }] }]

/-- Witness for C4 at a concrete two-page listing: both backend-contract
hypotheses hold, and the drained result is sorted and duplicate-free. -/
theorem list_objects_spec_witness :
    ∃ res : List String,
      list_objects (Except.ok pagesW) = Except.ok res ∧
      res.Sorted (· ≤ ·) ∧ res.Nodup := by
  obtain ⟨res, h1, h2, h3, -⟩ :=
    list_objects_spec "pre/" ["pre/b", "pre/a", "x"] pagesW (by decide) (by decide)
  exact ⟨res, h1, h2, h3⟩

/-- Claim C6 amended: for a transform pair valid at `d` (`enc d = ok ed`,
`dec ed = ok d`), writing with `enc` then reading with `dec` yields exactly `d`,
the raw stored bytes are `ed`, and the raw stored bytes differ from `d` whenever
`enc d ≠ d` (the claim's "whenever `enc` is not the identity function" is false —
see the counterexample — since a non-identity `enc` may still fix the particular
`d`). -/
theorem encryption_round_trip (store : Store) (p : String) (d ed : Bytes)
    (enc dec : Bytes → Except Err Bytes)
    (henc : enc d = Except.ok ed) (hdec : dec ed = Except.ok d) :
    write_data store p d (some enc) none = Except.ok (store.insert p ed) ∧
    read_data (store.insert p ed) p (some dec) = Except.ok d ∧
    read_data (store.insert p ed) p none = Except.ok ed ∧
    (ed ≠ d → read_data (store.insert p ed) p none ≠ Except.ok d) := by
  have hfind : (store.insert p ed).find p = some ed := by
    simp [Store.insert, Store.find]
  refine ⟨?_, ?_, ?_, ?_⟩
  · simp [write_data, henc]
  · simp [read_data, getObject, hfind, hdec]
  · simp [read_data, getObject, hfind]
  · intro hne hcontra
    rw [show read_data (store.insert p ed) p none = Except.ok ed by
      simp [read_data, getObject, hfind]] at hcontra
    exact hne (by injection hcontra)

/-- A shift-by-one transform and its inverse, used by the C6 witness. -/
def encShift : Bytes → Except Err Bytes := fun b => Except.ok (b.map (· + 1))

def decShift : Bytes → Except Err Bytes := fun b => Except.ok (b.map (· - 1))

/-- Witness for C6 at a concrete payload and shift transform: the round trip
returns the original bytes and the raw stored bytes are the shifted ones. -/
theorem encryption_round_trip_witness :
    read_data (Store.insert [] "p" [6, 7]) "p" (some decShift) = Except.ok [5, 6] ∧
    read_data (Store.insert [] "p" [6, 7]) "p" none = Except.ok [6, 7] :=
  have h := encryption_round_trip [] "p" [5, 6] [6, 7] encShift decShift rfl rfl
  ⟨h.2.1, h.2.2.1⟩

/-- A self-inverse transform that swaps the payloads `[0]` and `[1]` and fixes
every other payload: a valid round-trip pair that is not the identity. -/
def encSwap01 : Bytes → Except Err Bytes :=
  fun b => Except.ok (if b = [0] then [1] else if b = [1] then [0] else b)

def decSwap01 : Bytes → Except Err Bytes := encSwap01

/-- Counterexample to claim C6 as stated: `(encSwap01, decSwap01)` is a valid
transform pair (`dec (enc x) = x` for all `x`) and `encSwap01` is not the
identity, yet after `write_data "p" [2]` with it the raw stored bytes read back
equal the original `[2]` — the raw bytes do not differ whenever the transform is
non-identity, only whenever it moves the particular payload. -/
theorem raw_bytes_equal_counterexample :
    (∀ x : Bytes, (encSwap01 x).bind decSwap01 = Except.ok x) ∧
    (¬ ∀ x : Bytes, encSwap01 x = Except.ok x) ∧
    (∃ s2 : Store, write_data [] "p" [2] (some encSwap01) none = Except.ok s2 ∧
      read_data s2 "p" none = Except.ok [2]) := by
  refine ⟨?_, ?_, ⟨[("p", [2])], rfl, rfl⟩⟩
  · intro x
    by_cases h0 : x = [0]
    · subst h0; rfl
    · by_cases h1 : x = [1]
      · subst h1; rfl
      · simp [encSwap01, decSwap01, Except.bind, h0, h1]
  · intro h
    have h0 := h [0]
    simp [encSwap01] at h0

/-- Helper for C10: one operation returns the facade (`&self`) unchanged. -/
theorem applyOp_fst (fac : S3Facade) (store : Store) (op : FacadeOp) :
    (applyOp fac store op).1 = fac := by
  cases op <;> rfl

/-- Helper for C10: a whole operation sequence returns the facade unchanged. -/
theorem runOps_fst (ops : List FacadeOp) :
    ∀ (fac : S3Facade) (store : Store), (runOps fac store ops).1 = fac := by
  induction ops with
  | nil => intro fac store; rfl
  | cons op rest ih =>
    intro fac store
    show (runOps (applyOp fac store op).1 (applyOp fac store op).2 rest).1 = fac
    rw [applyOp_fst]
    exact ih fac _

/-- Claim C10: every facade operation takes the facade by shared reference and
returns it unchanged — after any sequence of operations, `metadata()` still
reports the identity, name and description captured at construction time. -/
theorem facade_state_invariant (name desc : String)
    (req : Except Err HeadBucketOutput) (fac : S3Facade) (store : Store)
    (ops : List FacadeOp)
    (hnew : S3Facade.new name desc req = Except.ok fac) :
    (runOps fac store ops).1.metadata = fac.metadata ∧
    (runOps fac store ops).1.metadata.name = name ∧
    (runOps fac store ops).1.metadata.description = desc := by
  have hfst := runOps_fst ops fac store
  have hmeta : fac.metadata.name = name ∧ fac.metadata.description = desc := by
    cases req with
    | error e => exact absurd hnew (by simp [S3Facade.new])
    | ok out =>
      cases out with
      | mk arn =>
        cases arn with
        | none =>
          injection hnew with h
          subst h
          exact ⟨rfl, rfl⟩
        | some a =>
          injection hnew with h
          subst h
          exact ⟨rfl, rfl⟩
  exact ⟨by rw [hfst], by rw [hfst]; exact hmeta.1, by rw [hfst]; exact hmeta.2⟩

/-- Witness for C10 at a concrete construction and operation sequence. -/
theorem facade_state_invariant_witness :
    (runOps
      { metadata := { id := DataStoreId.S3 "arn:aws:s3:::b",
                      name := "b", description := "d" } }
      [("x", [1])]
      [FacadeOp.deleteFile "x" none, FacadeOp.copyFile "x" "y" none]).1.metadata.name
      = "b" :=
  (facade_state_invariant "b" "d" (Except.ok { bucket_arn := none })
    { metadata := { id := DataStoreId.S3 "arn:aws:s3:::b",
                    name := "b", description := "d" } }
    [("x", [1])]
    [FacadeOp.deleteFile "x" none, FacadeOp.copyFile "x" "y" none] rfl).2.1

end Fallible
